import Mathlib

/-!
# The HSA dispatch example (`src/example/main.cpp`)

A shallow embedding of the example program: the agent visitor `FindGpuDevice`,
the ring-slot computation, the dispatch packet, the validation loop and
`main` itself, run against an environment that answers every call the
program makes to the HSA runtime, the file system and the allocator.

Machine integers are natural numbers (`Int` for the signed ones); the places
where a width matters reduce modulo `2 ^ w` explicitly.
-/

namespace HsaExample

/-! ## Types of the runtime interface -/

/-- Status values of `hsa_status_t` that the program names, and all the others. -/
inductive hsa_status_t where
  | HSA_STATUS_SUCCESS
  | HSA_STATUS_ERROR_INVALID_ARGUMENT
  | HSA_STATUS_OTHER (code : Nat)
  deriving DecidableEq

/-- Device classes of `hsa_device_type_t`. -/
inductive hsa_device_type_t where
  | HSA_DEVICE_TYPE_CPU
  | HSA_DEVICE_TYPE_GPU
  | HSA_DEVICE_TYPE_DSP
  deriving DecidableEq

/-- An agent: `struct { uint64_t handle; }`. -/
structure hsa_agent_t where
  handle : Nat
  deriving DecidableEq

/-- The fields of `hsa_queue_t` that the program reads, and the identity of
the queue object the pointer `commandQueue` refers to. -/
structure hsa_queue_t where
  id : Nat
  size : Nat
  base_address : Nat
  doorbell_signal : Nat
  deriving DecidableEq

/-- The dispatch packet `hsa_kernel_dispatch_packet_t`: the fields `main`
assigns after the `memset` to zero. -/
structure hsa_kernel_dispatch_packet_t where
  header : Nat
  setup : Nat
  workgroup_size_x : Nat
  workgroup_size_y : Nat
  workgroup_size_z : Nat
  grid_size_x : Nat
  grid_size_y : Nat
  grid_size_z : Nat
  private_segment_size : Nat
  group_segment_size : Nat
  kernel_object : Nat
  kernarg_address : Nat
  completion_signal : Nat
  deriving DecidableEq

/-- The constants of `hsa.h` that the packet set-up uses: the enumerators
`main` names (bit positions and field values) and the widths the header
declares for the same fields. The header is not part of the sources, so they
are a parameter of the model. -/
structure HsaConstants where
  HSA_PACKET_TYPE_KERNEL_DISPATCH : Nat
  HSA_FENCE_SCOPE_SYSTEM : Nat
  HSA_PACKET_HEADER_TYPE : Nat
  HSA_PACKET_HEADER_BARRIER : Nat
  HSA_PACKET_HEADER_ACQUIRE_FENCE_SCOPE : Nat
  HSA_PACKET_HEADER_RELEASE_FENCE_SCOPE : Nat
  HSA_PACKET_HEADER_WIDTH_TYPE : Nat
  HSA_PACKET_HEADER_WIDTH_BARRIER : Nat
  HSA_PACKET_HEADER_WIDTH_ACQUIRE_FENCE_SCOPE : Nat
  HSA_PACKET_HEADER_WIDTH_RELEASE_FENCE_SCOPE : Nat
  HSA_KERNEL_DISPATCH_PACKET_SETUP_DIMENSIONS : Nat
  HSA_KERNEL_DISPATCH_PACKET_SETUP_WIDTH_DIMENSIONS : Nat

/-! ## `FindGpuDevice` and the agent enumeration -/

/-- The visitor `FindGpuDevice(agent, data)`. `data` is the pointer to the
candidate slot (`none` for `NULL`); `agent_device` answers
`hsa_agent_get_info(agent, HSA_AGENT_INFO_DEVICE, ...)`. The result is the
returned status and the slot afterwards. -/
def FindGpuDevice (agent_device : hsa_agent_t → hsa_status_t × hsa_device_type_t)
    (agent : hsa_agent_t) (data : Option hsa_agent_t) :
    hsa_status_t × Option hsa_agent_t :=
  match data with
  | none => (.HSA_STATUS_ERROR_INVALID_ARGUMENT, none)
  | some slot =>
    let hsa_error_code := (agent_device agent).1
    let hsa_device_type := (agent_device agent).2
    if hsa_error_code ≠ .HSA_STATUS_SUCCESS then
      (hsa_error_code, some slot)
    else if hsa_device_type = .HSA_DEVICE_TYPE_GPU then
      (.HSA_STATUS_SUCCESS, some agent)
    else
      (.HSA_STATUS_SUCCESS, some slot)

/-- Modelled from the spec: the runtime's `hsa_iterate_agents(callback, data)`,
whose code is not part of the sources. The agents are passed to the callback
one by one in the enumeration order, with the same `data`; the traversal stops
at the first callback status other than success and returns it. -/
def hsa_iterate_agents
    (callback : hsa_agent_t → Option hsa_agent_t → hsa_status_t × Option hsa_agent_t) :
    List hsa_agent_t → Option hsa_agent_t → hsa_status_t × Option hsa_agent_t
  | [], data => (.HSA_STATUS_SUCCESS, data)
  | agent :: rest, data =>
    if (callback agent data).1 ≠ .HSA_STATUS_SUCCESS then
      callback agent data
    else
      hsa_iterate_agents callback rest (callback agent data).2

/-! ## The ring slot -/

/-- The mask `const uint32_t queueMask = queueSize - 1;` in 32-bit unsigned
arithmetic. -/
def queueMask (queueSize : Nat) : Nat :=
  (queueSize % 2 ^ 32 + 2 ^ 32 - 1) % 2 ^ 32

/-- The slot `index & queueMask`: the 64-bit write index and the 32-bit mask
widened to 64 bits. -/
def slotIndex (index queueMask : Nat) : Nat :=
  (index % 2 ^ 64) &&& (queueMask % 2 ^ 32)

/-! ## The dispatch packet -/

/-- The value stored in `aql.header` (a `uint16_t`). -/
def packetHeader (K : HsaConstants) : Nat :=
  ((K.HSA_PACKET_TYPE_KERNEL_DISPATCH <<< K.HSA_PACKET_HEADER_TYPE) |||
   (1 <<< K.HSA_PACKET_HEADER_BARRIER) |||
   (K.HSA_FENCE_SCOPE_SYSTEM <<< K.HSA_PACKET_HEADER_ACQUIRE_FENCE_SCOPE) |||
   (K.HSA_FENCE_SCOPE_SYSTEM <<< K.HSA_PACKET_HEADER_RELEASE_FENCE_SCOPE)) % 2 ^ 16

/-- The constant `kNumDimension`. -/
def kNumDimension : Nat := 1

/-- The value stored in `aql.setup` (a `uint16_t`). -/
def packetSetup (K : HsaConstants) : Nat :=
  (kNumDimension <<< K.HSA_KERNEL_DISPATCH_PACKET_SETUP_DIMENSIONS) % 2 ^ 16

/-- The packet `aql` as `main` has filled it in when it is copied into the
queue: zeroed, then the set-up assignments, then the kernel object and the
argument address. -/
def dispatchPacket (K : HsaConstants) (signal codeHandle argsAddress : Nat) :
    hsa_kernel_dispatch_packet_t where
  header := packetHeader K
  setup := packetSetup K
  workgroup_size_x := 64
  workgroup_size_y := 1
  workgroup_size_z := 1
  grid_size_x := 64
  grid_size_y := 1
  grid_size_z := 1
  private_segment_size := 0
  group_segment_size := 0
  kernel_object := codeHandle
  kernarg_address := argsAddress
  completion_signal := signal

/-- The bit field of `value` that starts at bit `offset` and is `width` bits
wide. -/
def bitField (value offset width : Nat) : Nat :=
  (value >>> offset) % 2 ^ width

/-- Two bit fields, each given by its first bit and its width, share no bit. -/
def fieldsDisjoint (offset₁ width₁ offset₂ width₂ : Nat) : Prop :=
  offset₁ + width₁ ≤ offset₂ ∨ offset₂ + width₂ ≤ offset₁

/-- The bit `p` lies in the field that starts at `offset` and is `width` bits wide. -/
def inField (p offset width : Nat) : Prop :=
  offset ≤ p ∧ p < offset + width

/-- What `hsa.h` guarantees about the constants: the four header fields lie
within the 16-bit header and do not overlap, the dimensions field lies within
the 16-bit setup word, and every value stored fits the width of its field. -/
structure HeaderLayout (K : HsaConstants) : Prop where
  type_fits : K.HSA_PACKET_TYPE_KERNEL_DISPATCH < 2 ^ K.HSA_PACKET_HEADER_WIDTH_TYPE
  barrier_fits : 1 < 2 ^ K.HSA_PACKET_HEADER_WIDTH_BARRIER
  acquire_fits : K.HSA_FENCE_SCOPE_SYSTEM < 2 ^ K.HSA_PACKET_HEADER_WIDTH_ACQUIRE_FENCE_SCOPE
  release_fits : K.HSA_FENCE_SCOPE_SYSTEM < 2 ^ K.HSA_PACKET_HEADER_WIDTH_RELEASE_FENCE_SCOPE
  dimensions_fit : kNumDimension < 2 ^ K.HSA_KERNEL_DISPATCH_PACKET_SETUP_WIDTH_DIMENSIONS
  type_within : K.HSA_PACKET_HEADER_TYPE + K.HSA_PACKET_HEADER_WIDTH_TYPE ≤ 16
  barrier_within : K.HSA_PACKET_HEADER_BARRIER + K.HSA_PACKET_HEADER_WIDTH_BARRIER ≤ 16
  acquire_within : K.HSA_PACKET_HEADER_ACQUIRE_FENCE_SCOPE +
    K.HSA_PACKET_HEADER_WIDTH_ACQUIRE_FENCE_SCOPE ≤ 16
  release_within : K.HSA_PACKET_HEADER_RELEASE_FENCE_SCOPE +
    K.HSA_PACKET_HEADER_WIDTH_RELEASE_FENCE_SCOPE ≤ 16
  dimensions_within : K.HSA_KERNEL_DISPATCH_PACKET_SETUP_DIMENSIONS +
    K.HSA_KERNEL_DISPATCH_PACKET_SETUP_WIDTH_DIMENSIONS ≤ 16
  type_barrier : fieldsDisjoint K.HSA_PACKET_HEADER_TYPE K.HSA_PACKET_HEADER_WIDTH_TYPE
    K.HSA_PACKET_HEADER_BARRIER K.HSA_PACKET_HEADER_WIDTH_BARRIER
  type_acquire : fieldsDisjoint K.HSA_PACKET_HEADER_TYPE K.HSA_PACKET_HEADER_WIDTH_TYPE
    K.HSA_PACKET_HEADER_ACQUIRE_FENCE_SCOPE K.HSA_PACKET_HEADER_WIDTH_ACQUIRE_FENCE_SCOPE
  type_release : fieldsDisjoint K.HSA_PACKET_HEADER_TYPE K.HSA_PACKET_HEADER_WIDTH_TYPE
    K.HSA_PACKET_HEADER_RELEASE_FENCE_SCOPE K.HSA_PACKET_HEADER_WIDTH_RELEASE_FENCE_SCOPE
  barrier_acquire : fieldsDisjoint K.HSA_PACKET_HEADER_BARRIER K.HSA_PACKET_HEADER_WIDTH_BARRIER
    K.HSA_PACKET_HEADER_ACQUIRE_FENCE_SCOPE K.HSA_PACKET_HEADER_WIDTH_ACQUIRE_FENCE_SCOPE
  barrier_release : fieldsDisjoint K.HSA_PACKET_HEADER_BARRIER K.HSA_PACKET_HEADER_WIDTH_BARRIER
    K.HSA_PACKET_HEADER_RELEASE_FENCE_SCOPE K.HSA_PACKET_HEADER_WIDTH_RELEASE_FENCE_SCOPE
  acquire_release : fieldsDisjoint K.HSA_PACKET_HEADER_ACQUIRE_FENCE_SCOPE
    K.HSA_PACKET_HEADER_WIDTH_ACQUIRE_FENCE_SCOPE K.HSA_PACKET_HEADER_RELEASE_FENCE_SCOPE
    K.HSA_PACKET_HEADER_WIDTH_RELEASE_FENCE_SCOPE

/-! ## The validation loop -/

/-- The two variables of the validation loop. -/
structure Validation where
  valid : Bool
  failIndex : Int
  deriving DecidableEq

/-- The loop `for (int i = 0; i < 64; i++)` of the validation, from the index
`i` on, with `fuel` iterations allowed. The arrays are read through their
index: `inp i` is `in[i]`. -/
def validateLoop (inp out varDat : Nat → Nat) : Nat → Nat → Validation → Validation
  | 0, _, st => st
  | fuel + 1, i, st =>
    if i < 64 then
      if varDat i ≠ out i then
        { valid := false, failIndex := (i : Int) }
      else if inp i ≠ out i then
        { valid := false, failIndex := (i : Int) }
      else
        validateLoop inp out varDat fuel (i + 1) st
    else
      st

/-- The validation of `main`: `valid = true`, `failIndex = 0`, then the loop
from index 0. Sixty-four iterations exhaust the loop. -/
def validate (inp out varDat : Nat → Nat) : Validation :=
  validateLoop inp out varDat 64 0 { valid := true, failIndex := 0 }

/-- The contents of `in` before the dispatch: `calloc` zeroes, then
`in[i] = i` for `i < 64`. -/
def inputSequence (i : Nat) : Nat :=
  if i < 64 then i else 0

/-- The contents of `out` before the dispatch: zeroed by `calloc`. -/
def zeroed (_ : Nat) : Nat := 0

/-- The conversion of a `uint64_t` to the signed 64-bit `hsa_signal_value_t`. -/
def toSignalValue (n : Nat) : Int :=
  if n % 2 ^ 64 < 2 ^ 63 then ((n % 2 ^ 64 : Nat) : Int) else ((n % 2 ^ 64 : Nat) : Int) - 2 ^ 64

/-! ## Runs of `main` -/

/-- What the validation loop reads once the wait has returned. -/
structure HostArrays where
  inp : Nat → Nat
  out : Nat → Nat
  varDat : Nat → Nat

/-- One executed call or output statement of `main`, with its arguments and
what it returned. -/
inductive Event where
  | hsa_init (status : hsa_status_t)
  | file_open (name : String) (good : Bool)
  | malloc (size pointer : Nat)
  | file_read (pointer size : Nat)
  | file_close
  | hsa_code_object_deserialize (pointer size : Nat) (status : hsa_status_t) (handle : Nat)
  | free (pointer : Nat)
  | hsa_iterate_agents (status : hsa_status_t) (device : hsa_agent_t)
  | hsa_agent_get_info_name (agent : hsa_agent_t) (status : hsa_status_t) (name : String)
  | cout (parts : List String)
  | hsa_agent_get_info_queue_max_size (agent : hsa_agent_t) (status : hsa_status_t) (size : Nat)
  | hsa_queue_create (agent : hsa_agent_t) (size : Nat) (status : hsa_status_t)
      (queue : hsa_queue_t)
  | hsa_executable_create (status : hsa_status_t) (executable : Nat)
  | hsa_executable_load_code_object (executable : Nat) (agent : hsa_agent_t)
      (code_object : Nat) (status : hsa_status_t)
  | hsa_executable_freeze (executable : Nat) (status : hsa_status_t)
  | hsa_executable_get_symbol (executable : Nat) (name : String) (agent : hsa_agent_t)
      (status : hsa_status_t) (symbol : Nat)
  | hsa_executable_symbol_get_info_kernel_object (symbol : Nat) (status : hsa_status_t)
      (value : Nat)
  | hsa_executable_symbol_get_info_variable_address (symbol : Nat) (status : hsa_status_t)
      (value : Nat)
  | hsa_signal_create (initial : Int) (status : hsa_status_t) (signal : Nat)
  | calloc (count size pointer : Nat)
  | hsa_memory_register (pointer size : Nat) (status : hsa_status_t)
  | hsa_queue_load_write_index_relaxed (queue : hsa_queue_t) (index : Nat)
  | packet_store (queue : hsa_queue_t) (slot : Nat) (packet : hsa_kernel_dispatch_packet_t)
  | hsa_queue_store_write_index_relaxed (queue : hsa_queue_t) (value : Nat)
  | hsa_signal_store_relaxed (signal : Nat) (value : Int)
  | hsa_signal_wait_acquire (signal : Nat) (returned : Int)
  | printf (format : String) (arguments : List Int)
  | hsa_signal_destroy (signal : Nat) (status : hsa_status_t)
  | hsa_executable_destroy (executable : Nat) (status : hsa_status_t)
  | hsa_code_object_destroy (code_object : Nat) (status : hsa_status_t)
  | hsa_queue_destroy (queue : hsa_queue_t) (status : hsa_status_t)
  | hsa_shut_down (status : hsa_status_t)
  deriving DecidableEq

/-- How a run ends: a failed `assert` (abnormal termination through `abort`),
or `exit(status)` and the return from `main` with that status. -/
inductive Termination where
  | aborted
  | exited (status : Int)
  deriving DecidableEq

/-- A run of the program: the events in program order and how it ended. -/
structure Run where
  trace : List Event
  ending : Termination
  deriving DecidableEq

/-- The answers of everything outside the program: the HSA runtime, the file
`globals.o`, the allocator and the device. Each field answers the call of the
same name for the arguments `main` passes. -/
structure Env where
  hsa_init : hsa_status_t
  file_good : Bool
  file_size : Nat
  malloc : Nat → Nat
  hsa_code_object_deserialize : Nat → Nat → hsa_status_t × Nat
  agents : List hsa_agent_t
  agent_device : hsa_agent_t → hsa_status_t × hsa_device_type_t
  agent_name : hsa_agent_t → hsa_status_t × String
  agent_queue_max_size : hsa_agent_t → hsa_status_t × Nat
  hsa_queue_create : hsa_agent_t → Nat → hsa_status_t × hsa_queue_t
  hsa_executable_create : hsa_status_t × Nat
  hsa_executable_load_code_object : Nat → hsa_agent_t → Nat → hsa_status_t
  hsa_executable_freeze : Nat → hsa_status_t
  hsa_executable_get_symbol : Nat → String → hsa_agent_t → hsa_status_t × Nat
  symbol_kernel_object : Nat → hsa_status_t × Nat
  symbol_variable_address : Nat → hsa_status_t × Nat
  hsa_signal_create : hsa_status_t × Nat
  calloc_in : Nat
  calloc_out : Nat
  args_address : Nat
  hsa_memory_register : Nat → Nat → hsa_status_t
  hsa_queue_load_write_index_relaxed : hsa_queue_t → Nat
  hsa_signal_wait_acquire : Nat → Int
  memory_after : (Nat → Nat) → (Nat → Nat) → Nat → HostArrays
  hsa_signal_destroy : Nat → hsa_status_t
  hsa_executable_destroy : Nat → hsa_status_t
  hsa_code_object_destroy : Nat → hsa_status_t
  hsa_queue_destroy : hsa_queue_t → hsa_status_t
  hsa_shut_down : hsa_status_t

/-- The statement ran: its event comes first, the rest of the run follows. -/
def emit (e : Event) (rest : Run) : Run :=
  { trace := e :: rest.trace, ending := rest.ending }

/-- The statement `assert(c)`: the run goes on when `c` holds and aborts there otherwise. -/
def assert (c : Prop) [Decidable c] (rest : Run) : Run :=
  if c then rest else { trace := [], ending := .aborted }

/-- The `printf` that reports the outcome of the validation. -/
def validationReport (v : Validation) : Event :=
  if v.valid then
    .printf "passed validation\n" []
  else
    .printf "VALIDATION FAILED!\nBad index: %d\n" [v.failIndex]

/-- The program `main`, statement by statement, against the environment `env`. -/
def main (K : HsaConstants) (env : Env) : Run :=
  -- Initialize hsa runtime.
  let hsa_status := env.hsa_init
  emit (.hsa_init hsa_status) <|
  assert (hsa_status_t.HSA_STATUS_SUCCESS = hsa_status) <|
  -- Open file, find out its size, allocate, read, close.
  emit (.file_open "globals.o" env.file_good) <|
  assert (env.file_good = true) <|
  let size := env.file_size
  let raw_code_object := env.malloc size
  emit (.malloc size raw_code_object) <|
  assert (raw_code_object ≠ 0) <|
  emit (.file_read raw_code_object size) <|
  emit .file_close <|
  -- Deserialize code object.
  let hsa_status := (env.hsa_code_object_deserialize raw_code_object size).1
  let code_object := (env.hsa_code_object_deserialize raw_code_object size).2
  emit (.hsa_code_object_deserialize raw_code_object size hsa_status code_object) <|
  assert (hsa_status_t.HSA_STATUS_SUCCESS = hsa_status) <|
  assert (0 ≠ code_object) <|
  emit (.free raw_code_object) <|
  -- Find GPU device.
  let found := hsa_iterate_agents (FindGpuDevice env.agent_device) env.agents
    (some { handle := 0 })
  let hsa_status := found.1
  let device := found.2.getD { handle := 0 }
  emit (.hsa_iterate_agents hsa_status device) <|
  assert (hsa_status_t.HSA_STATUS_SUCCESS = hsa_status) <|
  assert (0 ≠ device.handle) <|
  -- Print out device name.
  let hsa_status := (env.agent_name device).1
  let device_name := (env.agent_name device).2
  emit (.hsa_agent_get_info_name device hsa_status device_name) <|
  assert (hsa_status_t.HSA_STATUS_SUCCESS = hsa_status) <|
  emit (.cout ["Using <", device_name, ">", "\n"]) <|
  -- Get queue size.
  let hsa_status := (env.agent_queue_max_size device).1
  let queue_size := (env.agent_queue_max_size device).2
  emit (.hsa_agent_get_info_queue_max_size device hsa_status queue_size) <|
  assert (hsa_status_t.HSA_STATUS_SUCCESS = hsa_status) <|
  -- Create command queue.
  let hsa_status := (env.hsa_queue_create device queue_size).1
  let commandQueue := (env.hsa_queue_create device queue_size).2
  emit (.hsa_queue_create device queue_size hsa_status commandQueue) <|
  assert (hsa_status_t.HSA_STATUS_SUCCESS = hsa_status) <|
  -- Create executable.
  let hsa_status := env.hsa_executable_create.1
  let hsaExecutable := env.hsa_executable_create.2
  emit (.hsa_executable_create hsa_status hsaExecutable) <|
  assert (hsa_status_t.HSA_STATUS_SUCCESS = hsa_status) <|
  -- Load code object.
  let hsa_status := env.hsa_executable_load_code_object hsaExecutable device code_object
  emit (.hsa_executable_load_code_object hsaExecutable device code_object hsa_status) <|
  assert (hsa_status_t.HSA_STATUS_SUCCESS = hsa_status) <|
  -- Freeze executable.
  let hsa_status := env.hsa_executable_freeze hsaExecutable
  emit (.hsa_executable_freeze hsaExecutable hsa_status) <|
  assert (hsa_status_t.HSA_STATUS_SUCCESS = hsa_status) <|
  -- Get symbol handle.
  let hsa_status := (env.hsa_executable_get_symbol hsaExecutable "&test_kernel" device).1
  let kernelSymbol := (env.hsa_executable_get_symbol hsaExecutable "&test_kernel" device).2
  emit (.hsa_executable_get_symbol hsaExecutable "&test_kernel" device hsa_status
    kernelSymbol) <|
  assert (hsa_status_t.HSA_STATUS_SUCCESS = hsa_status) <|
  -- Get code handle.
  let hsa_status := (env.symbol_kernel_object kernelSymbol).1
  let codeHandle := (env.symbol_kernel_object kernelSymbol).2
  emit (.hsa_executable_symbol_get_info_kernel_object kernelSymbol hsa_status codeHandle) <|
  assert (hsa_status_t.HSA_STATUS_SUCCESS = hsa_status) <|
  -- Get a signal.
  let hsa_status := env.hsa_signal_create.1
  let signal := env.hsa_signal_create.2
  emit (.hsa_signal_create 1 hsa_status signal) <|
  assert (hsa_status_t.HSA_STATUS_SUCCESS = hsa_status) <|
  -- Setup kernel arguments.
  let inp := env.calloc_in
  let out := env.calloc_out
  emit (.calloc 64 4 inp) <|
  emit (.calloc 64 4 out) <|
  let hsa_status := env.hsa_memory_register inp (64 * 4)
  emit (.hsa_memory_register inp (64 * 4) hsa_status) <|
  assert (hsa_status_t.HSA_STATUS_SUCCESS = hsa_status) <|
  let hsa_status := env.hsa_memory_register out (64 * 4)
  emit (.hsa_memory_register out (64 * 4) hsa_status) <|
  assert (hsa_status_t.HSA_STATUS_SUCCESS = hsa_status) <|
  -- Setup dispatch packet; bind kernel arguments and kernel code.
  let aql := dispatchPacket K signal codeHandle env.args_address
  -- Register argument buffer.
  emit (.hsa_memory_register env.args_address 16
    (env.hsa_memory_register env.args_address 16)) <|
  let queueSize := commandQueue.size
  -- Write to command queue.
  let index := env.hsa_queue_load_write_index_relaxed commandQueue
  emit (.hsa_queue_load_write_index_relaxed commandQueue index) <|
  emit (.packet_store commandQueue (slotIndex index (queueMask queueSize)) aql) <|
  emit (.hsa_queue_store_write_index_relaxed commandQueue ((index + 1) % 2 ^ 64)) <|
  -- Ring doorbell.
  emit (.hsa_signal_store_relaxed commandQueue.doorbell_signal (toSignalValue index)) <|
  let waited := env.hsa_signal_wait_acquire signal
  emit (.hsa_signal_wait_acquire signal waited) <|
  if waited ≠ 0 then
    emit (.printf "Signal wait returned unexpected value\n" []) <|
    { trace := [], ending := .exited 0 }
  else
  emit (.hsa_signal_store_relaxed signal 1) <|
  let hsa_status := (env.hsa_executable_get_symbol hsaExecutable "&var" { handle := 0 }).1
  let varSym := (env.hsa_executable_get_symbol hsaExecutable "&var" { handle := 0 }).2
  emit (.hsa_executable_get_symbol hsaExecutable "&var" { handle := 0 } hsa_status varSym) <|
  assert (hsa_status_t.HSA_STATUS_SUCCESS = hsa_status) <|
  let hsa_status := (env.symbol_variable_address varSym).1
  let varAdr := (env.symbol_variable_address varSym).2
  emit (.hsa_executable_symbol_get_info_variable_address varSym hsa_status varAdr) <|
  assert (hsa_status_t.HSA_STATUS_SUCCESS = hsa_status) <|
  -- Validate.
  let memory := env.memory_after inputSequence zeroed varAdr
  emit (validationReport (validate memory.inp memory.out memory.varDat)) <|
  -- Cleanup.
  let hsa_status := env.hsa_signal_destroy signal
  emit (.hsa_signal_destroy signal hsa_status) <|
  assert (hsa_status_t.HSA_STATUS_SUCCESS = hsa_status) <|
  let hsa_status := env.hsa_executable_destroy hsaExecutable
  emit (.hsa_executable_destroy hsaExecutable hsa_status) <|
  assert (hsa_status_t.HSA_STATUS_SUCCESS = hsa_status) <|
  let hsa_status := env.hsa_code_object_destroy code_object
  emit (.hsa_code_object_destroy code_object hsa_status) <|
  assert (hsa_status_t.HSA_STATUS_SUCCESS = hsa_status) <|
  let hsa_status := env.hsa_queue_destroy commandQueue
  emit (.hsa_queue_destroy commandQueue hsa_status) <|
  assert (hsa_status_t.HSA_STATUS_SUCCESS = hsa_status) <|
  let hsa_status := env.hsa_shut_down
  emit (.hsa_shut_down hsa_status) <|
  assert (hsa_status_t.HSA_STATUS_SUCCESS = hsa_status) <|
  emit (.free inp) <|
  emit (.free out) <|
  { trace := [], ending := .exited 0 }

/-- The device `main` selects: the candidate slot after the enumeration. -/
def selectedDevice (env : Env) : hsa_agent_t :=
  (hsa_iterate_agents (FindGpuDevice env.agent_device) env.agents
    (some { handle := 0 })).2.getD { handle := 0 }

/-- The calls the program makes only after the discovery on the queue, the
executable, its symbols and the dispatch: the queue-size query, the queue
creation, executable create, load and freeze, the symbol lookups and queries,
and the write-index, packet and doorbell operations. -/
def Event.isQueueExecutableOrDispatch : Event → Bool
  | .hsa_agent_get_info_queue_max_size .. => true
  | .hsa_queue_create .. => true
  | .hsa_executable_create .. => true
  | .hsa_executable_load_code_object .. => true
  | .hsa_executable_freeze .. => true
  | .hsa_executable_get_symbol .. => true
  | .hsa_executable_symbol_get_info_kernel_object .. => true
  | .hsa_executable_symbol_get_info_variable_address .. => true
  | .hsa_queue_load_write_index_relaxed .. => true
  | .packet_store .. => true
  | .hsa_queue_store_write_index_relaxed .. => true
  | .hsa_signal_store_relaxed .. => true
  | .hsa_signal_wait_acquire .. => true
  | _ => false

/-- The events up to and including the discovery. -/
def Event.isUpToDiscovery : Event → Bool
  | .hsa_init .. => true
  | .file_open .. => true
  | .malloc .. => true
  | .file_read .. => true
  | .file_close => true
  | .hsa_code_object_deserialize .. => true
  | .free .. => true
  | .hsa_iterate_agents .. => true
  | _ => false

/-- The status a teardown call returned, for the five teardown calls of the
program: the four destroy calls and the shut-down; `none` for any other event. -/
def Event.teardownStatus : Event → Option hsa_status_t
  | .hsa_signal_destroy _ status => some status
  | .hsa_executable_destroy _ status => some status
  | .hsa_code_object_destroy _ status => some status
  | .hsa_queue_destroy _ status => some status
  | .hsa_shut_down status => some status
  | _ => none

/-- Reading a trace from the left with the executables frozen so far: every
symbol lookup names an executable whose freeze has already returned success. -/
def lookupsFollowFreeze : List Nat → List Event → Prop
  | _, [] => True
  | frozen, .hsa_executable_freeze executable status :: rest =>
    lookupsFollowFreeze
      (if hsa_status_t.HSA_STATUS_SUCCESS = status then executable :: frozen else frozen) rest
  | frozen, .hsa_executable_get_symbol executable _ _ _ _ :: rest =>
    executable ∈ frozen ∧ lookupsFollowFreeze frozen rest
  | frozen, _ :: rest => lookupsFollowFreeze frozen rest

/-- The code object `main` obtains from the deserializer. -/
def Env.code_object (env : Env) : Nat :=
  (env.hsa_code_object_deserialize (env.malloc env.file_size) env.file_size).2

/-- The queue `main` creates: for the selected device, with the size the device reports. -/
def Env.commandQueue (env : Env) : hsa_queue_t :=
  (env.hsa_queue_create (selectedDevice env)
    (env.agent_queue_max_size (selectedDevice env)).2).2

/-- The executable `main` creates. -/
def Env.hsaExecutable (env : Env) : Nat :=
  env.hsa_executable_create.2

/-- The kernel symbol `main` resolves: `&test_kernel` of its executable for the
selected device. -/
def Env.kernelSymbol (env : Env) : Nat :=
  (env.hsa_executable_get_symbol env.hsaExecutable "&test_kernel" (selectedDevice env)).2

/-- The completion signal `main` creates. -/
def Env.signal (env : Env) : Nat :=
  env.hsa_signal_create.2

/-- The arrays the validation loop of `main` reads. -/
def Env.validated (env : Env) : HostArrays :=
  env.memory_after inputSequence zeroed
    (env.symbol_variable_address
      (env.hsa_executable_get_symbol env.hsaExecutable "&var" { handle := 0 }).2).2

/-- The run that has produced the events `acc` and continues as `r` satisfies
the property `Q` of complete runs. -/
structure RunSat (Q : List Event → Termination → Prop) (acc : List Event) (r : Run) : Prop where
  holds : Q (acc ++ r.trace) r.ending

/-- The run that has produced the events `acc` and ended with `x` satisfies `Q`. -/
structure EndSat (Q : List Event → Termination → Prop) (acc : List Event) (x : Termination) :
    Prop where
  holds : Q acc x

/-- The status an event's call returned, for the calls that return an
`hsa_status_t`; `none` for the other events. -/
def Event.status : Event → Option hsa_status_t
  | .hsa_init status => some status
  | .hsa_code_object_deserialize _ _ status _ => some status
  | .hsa_iterate_agents status _ => some status
  | .hsa_agent_get_info_name _ status _ => some status
  | .hsa_agent_get_info_queue_max_size _ status _ => some status
  | .hsa_queue_create _ _ status _ => some status
  | .hsa_executable_create status _ => some status
  | .hsa_executable_load_code_object _ _ _ status => some status
  | .hsa_executable_freeze _ status => some status
  | .hsa_executable_get_symbol _ _ _ status _ => some status
  | .hsa_executable_symbol_get_info_kernel_object _ status _ => some status
  | .hsa_executable_symbol_get_info_variable_address _ status _ => some status
  | .hsa_signal_create _ status _ => some status
  | .hsa_memory_register _ _ status => some status
  | .hsa_signal_destroy _ status => some status
  | .hsa_executable_destroy _ status => some status
  | .hsa_code_object_destroy _ status => some status
  | .hsa_queue_destroy _ status => some status
  | .hsa_shut_down status => some status
  | _ => none

/-- The kernel object `main` queries from the kernel symbol. -/
def Env.codeHandle (env : Env) : Nat :=
  (env.symbol_kernel_object env.kernelSymbol).2

/-- The write index `main` loads from its queue. -/
def Env.index (env : Env) : Nat :=
  env.hsa_queue_load_write_index_relaxed env.commandQueue

/-- What the claim says of a dispatch packet, for the constants `K`: the header
word holds the kernel-dispatch packet type, barrier bit 1 and system scope in
both fence fields, with every bit outside the four fields 0; the setup word
holds dimension count 1; grid and workgroup are 64x1x1 and both segment sizes
are 0. -/
structure PacketEncodes (K : HsaConstants) (packet : hsa_kernel_dispatch_packet_t) : Prop where
  packet_type : bitField packet.header K.HSA_PACKET_HEADER_TYPE
    K.HSA_PACKET_HEADER_WIDTH_TYPE = K.HSA_PACKET_TYPE_KERNEL_DISPATCH
  barrier : bitField packet.header K.HSA_PACKET_HEADER_BARRIER
    K.HSA_PACKET_HEADER_WIDTH_BARRIER = 1
  acquire : bitField packet.header K.HSA_PACKET_HEADER_ACQUIRE_FENCE_SCOPE
    K.HSA_PACKET_HEADER_WIDTH_ACQUIRE_FENCE_SCOPE = K.HSA_FENCE_SCOPE_SYSTEM
  release : bitField packet.header K.HSA_PACKET_HEADER_RELEASE_FENCE_SCOPE
    K.HSA_PACKET_HEADER_WIDTH_RELEASE_FENCE_SCOPE = K.HSA_FENCE_SCOPE_SYSTEM
  other_bits : ∀ p, packet.header.testBit p = true →
    inField p K.HSA_PACKET_HEADER_TYPE K.HSA_PACKET_HEADER_WIDTH_TYPE ∨
    inField p K.HSA_PACKET_HEADER_BARRIER K.HSA_PACKET_HEADER_WIDTH_BARRIER ∨
    inField p K.HSA_PACKET_HEADER_ACQUIRE_FENCE_SCOPE
      K.HSA_PACKET_HEADER_WIDTH_ACQUIRE_FENCE_SCOPE ∨
    inField p K.HSA_PACKET_HEADER_RELEASE_FENCE_SCOPE
      K.HSA_PACKET_HEADER_WIDTH_RELEASE_FENCE_SCOPE
  header_width : packet.header < 2 ^ 16
  dimensions : bitField packet.setup K.HSA_KERNEL_DISPATCH_PACKET_SETUP_DIMENSIONS
    K.HSA_KERNEL_DISPATCH_PACKET_SETUP_WIDTH_DIMENSIONS = 1
  grid : packet.grid_size_x = 64 ∧ packet.grid_size_y = 1 ∧ packet.grid_size_z = 1
  workgroup : packet.workgroup_size_x = 64 ∧ packet.workgroup_size_y = 1 ∧
    packet.workgroup_size_z = 1
  group_segment : packet.group_segment_size = 0
  private_segment : packet.private_segment_size = 0

/-! ## Environments used as concrete inputs -/

/-- Modelled from the spec: the constants of the runtime header `hsa.h`, which
the program includes and which is not part of the sources. The spec names the
header fields (packet type, barrier bit, acquire and release fence scope) and
the values stored in them; the bit positions, widths and enumerator values are
those the HSA 1.0 header declares. -/
def hsa_1_0 : HsaConstants where
  HSA_PACKET_TYPE_KERNEL_DISPATCH := 2
  HSA_FENCE_SCOPE_SYSTEM := 2
  HSA_PACKET_HEADER_TYPE := 0
  HSA_PACKET_HEADER_BARRIER := 8
  HSA_PACKET_HEADER_ACQUIRE_FENCE_SCOPE := 9
  HSA_PACKET_HEADER_RELEASE_FENCE_SCOPE := 11
  HSA_PACKET_HEADER_WIDTH_TYPE := 8
  HSA_PACKET_HEADER_WIDTH_BARRIER := 1
  HSA_PACKET_HEADER_WIDTH_ACQUIRE_FENCE_SCOPE := 2
  HSA_PACKET_HEADER_WIDTH_RELEASE_FENCE_SCOPE := 2
  HSA_KERNEL_DISPATCH_PACKET_SETUP_DIMENSIONS := 0
  HSA_KERNEL_DISPATCH_PACKET_SETUP_WIDTH_DIMENSIONS := 2

/-- The output array of the failure scenario: the sequence 0..63 with a wrong
value at index 5 only. -/
def wrongAtFive (i : Nat) : Nat :=
  if i = 5 then 99 else inputSequence i

/-- An environment in which every call succeeds: a CPU agent (handle 7) and a
GPU agent (handle 9), a queue of 1024 slots, and a kernel that copies `in` to
`out` and to the device variable. -/
def goodEnv : Env where
  hsa_init := .HSA_STATUS_SUCCESS
  file_good := true
  file_size := 4096
  malloc := fun _ => 1000
  hsa_code_object_deserialize := fun _ _ => (.HSA_STATUS_SUCCESS, 11)
  agents := [{ handle := 7 }, { handle := 9 }]
  agent_device := fun a =>
    (.HSA_STATUS_SUCCESS, if a.handle = 9 then .HSA_DEVICE_TYPE_GPU else .HSA_DEVICE_TYPE_CPU)
  agent_name := fun _ => (.HSA_STATUS_SUCCESS, "gpu")
  agent_queue_max_size := fun _ => (.HSA_STATUS_SUCCESS, 1024)
  hsa_queue_create := fun _ size =>
    (.HSA_STATUS_SUCCESS, { id := 21, size := size, base_address := 5000, doorbell_signal := 22 })
  hsa_executable_create := (.HSA_STATUS_SUCCESS, 31)
  hsa_executable_load_code_object := fun _ _ _ => .HSA_STATUS_SUCCESS
  hsa_executable_freeze := fun _ => .HSA_STATUS_SUCCESS
  hsa_executable_get_symbol := fun _ name _ =>
    (.HSA_STATUS_SUCCESS, if name = "&var" then 42 else 41)
  symbol_kernel_object := fun _ => (.HSA_STATUS_SUCCESS, 7000)
  symbol_variable_address := fun _ => (.HSA_STATUS_SUCCESS, 8000)
  hsa_signal_create := (.HSA_STATUS_SUCCESS, 51)
  calloc_in := 2000
  calloc_out := 3000
  args_address := 4000
  hsa_memory_register := fun _ _ => .HSA_STATUS_SUCCESS
  hsa_queue_load_write_index_relaxed := fun _ => 0
  hsa_signal_wait_acquire := fun _ => 0
  memory_after := fun inp _ _ => { inp := inp, out := inp, varDat := inp }
  hsa_signal_destroy := fun _ => .HSA_STATUS_SUCCESS
  hsa_executable_destroy := fun _ => .HSA_STATUS_SUCCESS
  hsa_code_object_destroy := fun _ => .HSA_STATUS_SUCCESS
  hsa_queue_destroy := fun _ => .HSA_STATUS_SUCCESS
  hsa_shut_down := .HSA_STATUS_SUCCESS

/-- The environment `goodEnv` with two GPU agents, handles 1 and 2, enumerated
in that order. -/
def twoGpus : Env :=
  { goodEnv with
    agents := [{ handle := 1 }, { handle := 2 }]
    agent_device := fun _ => (.HSA_STATUS_SUCCESS, .HSA_DEVICE_TYPE_GPU) }

/-- The environment `goodEnv` with the CPU agent only. -/
def noGpu : Env :=
  { goodEnv with agents := [{ handle := 7 }] }

/-- The environment `goodEnv` in which registering the argument structure, at
address 4000, fails and every other call succeeds. -/
def argsRegistrationFails : Env :=
  { goodEnv with
    hsa_memory_register := fun pointer _ =>
      if pointer = 4000 then .HSA_STATUS_OTHER 1 else .HSA_STATUS_SUCCESS }

/-- The environment `goodEnv` in which the wait on the completion signal
returns 1. -/
def waitReturnsOne : Env :=
  { goodEnv with hsa_signal_wait_acquire := fun _ => 1 }

/-- The environment `goodEnv` with the write index of the queue at the largest
64-bit value. -/
def lastIndexEnv : Env :=
  { goodEnv with hsa_queue_load_write_index_relaxed := fun _ => 2 ^ 64 - 1 }

/-- The environment `goodEnv` with a device that writes a wrong value at index
5 of `out` only. -/
def wrongAtFiveEnv : Env :=
  { goodEnv with
    memory_after := fun inp _ _ => { inp := inp, out := wrongAtFive, varDat := inp } }

/-! ## The validation loop: what it computes -/

/-- Fuel beyond the loop bound changes nothing: from index `i` the
loop is over after `64 - i` iterations. -/
theorem validateLoop_fuel (inp out varDat : Nat → Nat) (st : Validation) :
    ∀ (fuel i : Nat), 64 - i ≤ fuel →
      validateLoop inp out varDat fuel i st = validateLoop inp out varDat (64 - i) i st := by
  intro fuel
  induction fuel with
  | zero => intro i h; have : 64 - i = 0 := by omega
            rw [this]
  | succ n ih =>
    intro i h
    by_cases hi : i < 64
    · obtain ⟨m, hm⟩ : ∃ m, 64 - i = m + 1 := ⟨63 - i, by omega⟩
      rw [hm]
      unfold validateLoop
      simp only [hi, if_true]
      have e1 := ih (i + 1) (by omega)
      have e2 : 64 - (i + 1) = m := by omega
      rw [e1, e2]
    · have : 64 - i = 0 := by omega
      rw [this]
      unfold validateLoop
      simp [hi]

/-- The candidate slot after the enumeration: the last agent reported as a GPU
among the agents visited (those before the first failing device query), and
the slot's previous content when there is none. -/
theorem iterate_FindGpuDevice_slot
    (agent_device : hsa_agent_t → hsa_status_t × hsa_device_type_t) :
    ∀ (agents : List hsa_agent_t) (slot : hsa_agent_t),
      (hsa_iterate_agents (FindGpuDevice agent_device) agents (some slot)).2 =
        some ((((agents.takeWhile
            (fun a => decide ((agent_device a).1 = hsa_status_t.HSA_STATUS_SUCCESS))).filter
            (fun a => decide ((agent_device a).2 = hsa_device_type_t.HSA_DEVICE_TYPE_GPU))).getLast?).getD
          slot) := by
  intro agents
  induction agents with
  | nil => intro slot; rfl
  | cons a rest ih =>
    intro slot
    by_cases hs : (agent_device a).1 = hsa_status_t.HSA_STATUS_SUCCESS
    · by_cases hg : (agent_device a).2 = hsa_device_type_t.HSA_DEVICE_TYPE_GPU
      · have hcb : FindGpuDevice agent_device a (some slot) =
            (hsa_status_t.HSA_STATUS_SUCCESS, some a) := by
          simp [FindGpuDevice, hs, hg]
        simp only [hsa_iterate_agents, hcb, ne_eq, not_true_eq_false, if_false]
        rw [ih a]
        simp [List.takeWhile_cons, hs, List.filter_cons, hg, List.getLast?_cons]
      · have hcb : FindGpuDevice agent_device a (some slot) =
            (hsa_status_t.HSA_STATUS_SUCCESS, some slot) := by
          simp [FindGpuDevice, hs, hg]
        simp only [hsa_iterate_agents, hcb, ne_eq, not_true_eq_false, if_false]
        rw [ih slot]
        simp [List.takeWhile_cons, hs, List.filter_cons, hg]
    · have hcb : FindGpuDevice agent_device a (some slot) =
          ((agent_device a).1, some slot) := by
        simp [FindGpuDevice, hs]
      simp [hsa_iterate_agents, hcb, hs, List.takeWhile_cons]

/-- C3, refuted: with two GPU agents enumerated in the order 1, 2 the candidate
recorded is agent 2, the later one, while the first GPU agent is agent 1. -/
theorem later_gpu_overwrites_candidate :
    hsa_iterate_agents (FindGpuDevice twoGpus.agent_device) twoGpus.agents
        (some { handle := 0 }) =
      (hsa_status_t.HSA_STATUS_SUCCESS, some { handle := 2 }) ∧
    twoGpus.agents.find?
        (fun a => decide ((twoGpus.agent_device a).2 = hsa_device_type_t.HSA_DEVICE_TYPE_GPU)) =
      some { handle := 1 } := by
  decide

/-- C3, amended: for every enumeration order the candidate recorded after the
enumeration is the last agent reported as a GPU among the agents visited, a
later GPU agent overwriting an earlier one; it is the initial candidate when no
visited agent is a GPU. The agents visited are those before the first failing
device query, all of them when every query succeeds. -/
theorem last_gpu_found_wins
    (agent_device : hsa_agent_t → hsa_status_t × hsa_device_type_t)
    (agents : List hsa_agent_t) :
    (hsa_iterate_agents (FindGpuDevice agent_device) agents (some { handle := 0 })).2 =
      some ((((agents.takeWhile
          (fun a => decide ((agent_device a).1 = hsa_status_t.HSA_STATUS_SUCCESS))).filter
          (fun a => decide ((agent_device a).2 = hsa_device_type_t.HSA_DEVICE_TYPE_GPU))).getLast?).getD
        { handle := 0 }) :=
  iterate_FindGpuDevice_slot agent_device agents { handle := 0 }

/-! ## The ring slot -/

/-- For a capacity that is a power of two below `2 ^ 32` and a 64-bit write
index, `index & (capacity - 1)` is `index mod capacity`, and so below the
capacity. -/
theorem slotIndex_eq_mod (queueSize index : Nat)
    (hpow : ∃ k, queueSize = 2 ^ k) (h32 : queueSize < 2 ^ 32) (h64 : index < 2 ^ 64) :
    slotIndex index (queueMask queueSize) = index % queueSize ∧
    slotIndex index (queueMask queueSize) < queueSize := by
  obtain ⟨k, rfl⟩ := hpow
  have hpos : 0 < 2 ^ k := Nat.two_pow_pos k
  have hmask : queueMask (2 ^ k) = 2 ^ k - 1 := by
    unfold queueMask
    rw [Nat.mod_eq_of_lt h32]
    have : 2 ^ k + 2 ^ 32 - 1 = (2 ^ k - 1) + 2 ^ 32 := by omega
    rw [this, Nat.add_mod_right]
    exact Nat.mod_eq_of_lt (by omega)
  have hslot : slotIndex index (queueMask (2 ^ k)) = index % 2 ^ k := by
    unfold slotIndex
    rw [hmask, Nat.mod_eq_of_lt h64, Nat.mod_eq_of_lt (by omega : 2 ^ k - 1 < 2 ^ 32)]
    exact Nat.and_pow_two_sub_one_eq_mod index k
  exact ⟨hslot, hslot ▸ Nat.mod_lt index hpos⟩

/-! ## The dispatch packet: the header and setup words -/

/-- A value that fits `w` bits has no bit set from bit `w` on. -/
theorem testBit_eq_false_of_fits (v w q : Nat) (hv : v < 2 ^ w) (hq : w ≤ q) :
    v.testBit q = false :=
  Nat.testBit_lt_two_pow (Nat.lt_of_lt_of_le hv (Nat.pow_le_pow_right (by decide) hq))

/-- A set bit of a shifted value lies in the field the value was shifted to. -/
theorem shifted_bit_inField (v o w p : Nat) (hv : v < 2 ^ w)
    (h : (v <<< o).testBit p = true) : inField p o w := by
  rw [Nat.testBit_shiftLeft] at h
  simp only [Bool.and_eq_true, decide_eq_true_eq] at h
  refine ⟨h.1, ?_⟩
  by_contra hc
  have hf := testBit_eq_false_of_fits v w (p - o) hv (by omega)
  rw [hf] at h
  exact Bool.false_ne_true h.2

/-- Reading a field back from the value shifted to it. -/
theorem bitField_shiftLeft_self (v o w : Nat) (hv : v < 2 ^ w) :
    bitField (v <<< o) o w = v := by
  unfold bitField
  rw [Nat.shiftLeft_shiftRight, Nat.mod_eq_of_lt hv]

/-- A value shifted to one field leaves a disjoint field zero. -/
theorem bitField_shiftLeft_other (v o₁ w₁ o w : Nat) (hv : v < 2 ^ w₁)
    (hd : fieldsDisjoint o₁ w₁ o w) : bitField (v <<< o₁) o w = 0 := by
  apply Nat.eq_of_testBit_eq
  intro i
  unfold bitField
  rw [Nat.testBit_mod_two_pow, Nat.testBit_shiftRight, Nat.zero_testBit]
  by_cases hi : i < w
  · have hb : (v <<< o₁).testBit (o + i) = false := by
      by_contra hc
      have hin := shifted_bit_inField v o₁ w₁ (o + i) hv (by simpa using hc)
      unfold inField at hin
      unfold fieldsDisjoint at hd
      omega
    simp [hb]
  · simp [hi]

/-- A field of a bitwise or is the bitwise or of the fields. -/
theorem bitField_or (a b o w : Nat) :
    bitField (a ||| b) o w = bitField a o w ||| bitField b o w := by
  apply Nat.eq_of_testBit_eq
  intro i
  unfold bitField
  simp only [Nat.testBit_mod_two_pow, Nat.testBit_shiftRight, Nat.testBit_or]
  cases decide (i < w) <;> simp

/-- Truncation to `n` bits keeps every field within the first `n` bits. -/
theorem bitField_mod_two_pow (x o w n : Nat) (h : o + w ≤ n) :
    bitField (x % 2 ^ n) o w = bitField x o w := by
  apply Nat.eq_of_testBit_eq
  intro i
  unfold bitField
  simp only [Nat.testBit_mod_two_pow, Nat.testBit_shiftRight]
  by_cases hi : i < w
  · have : o + i < n := by omega
    simp [hi, this]
  · simp [hi]

/-- The packet `main` builds encodes the stated fields, for every layout of the
constants whose fields lie within their words, do not overlap and hold their
values. -/
theorem dispatchPacket_encodes (K : HsaConstants) (signal codeHandle argsAddress : Nat)
    (hK : HeaderLayout K) :
    PacketEncodes K (dispatchPacket K signal codeHandle argsAddress) := by
  have symm : ∀ {a b c d : Nat}, fieldsDisjoint a b c d → fieldsDisjoint c d a b :=
    fun h => Or.symm h
  refine ⟨?_, ?_, ?_, ?_, ?_, ?_, ?_, ⟨rfl, rfl, rfl⟩, ⟨rfl, rfl, rfl⟩, rfl, rfl⟩
  · show bitField (packetHeader K) _ _ = _
    unfold packetHeader
    rw [bitField_mod_two_pow _ _ _ _ hK.type_within, bitField_or, bitField_or, bitField_or,
      bitField_shiftLeft_self _ _ _ hK.type_fits,
      bitField_shiftLeft_other _ _ _ _ _ hK.barrier_fits (symm hK.type_barrier),
      bitField_shiftLeft_other _ _ _ _ _ hK.acquire_fits (symm hK.type_acquire),
      bitField_shiftLeft_other _ _ _ _ _ hK.release_fits (symm hK.type_release)]
    simp
  · show bitField (packetHeader K) _ _ = _
    unfold packetHeader
    rw [bitField_mod_two_pow _ _ _ _ hK.barrier_within, bitField_or, bitField_or, bitField_or,
      bitField_shiftLeft_self _ _ _ hK.barrier_fits,
      bitField_shiftLeft_other _ _ _ _ _ hK.type_fits hK.type_barrier,
      bitField_shiftLeft_other _ _ _ _ _ hK.acquire_fits (symm hK.barrier_acquire),
      bitField_shiftLeft_other _ _ _ _ _ hK.release_fits (symm hK.barrier_release)]
    simp
  · show bitField (packetHeader K) _ _ = _
    unfold packetHeader
    rw [bitField_mod_two_pow _ _ _ _ hK.acquire_within, bitField_or, bitField_or, bitField_or,
      bitField_shiftLeft_self _ _ _ hK.acquire_fits,
      bitField_shiftLeft_other _ _ _ _ _ hK.type_fits hK.type_acquire,
      bitField_shiftLeft_other _ _ _ _ _ hK.barrier_fits hK.barrier_acquire,
      bitField_shiftLeft_other _ _ _ _ _ hK.release_fits (symm hK.acquire_release)]
    simp
  · show bitField (packetHeader K) _ _ = _
    unfold packetHeader
    rw [bitField_mod_two_pow _ _ _ _ hK.release_within, bitField_or, bitField_or, bitField_or,
      bitField_shiftLeft_self _ _ _ hK.release_fits,
      bitField_shiftLeft_other _ _ _ _ _ hK.type_fits hK.type_release,
      bitField_shiftLeft_other _ _ _ _ _ hK.barrier_fits hK.barrier_release,
      bitField_shiftLeft_other _ _ _ _ _ hK.acquire_fits hK.acquire_release]
    simp
  · intro p hp
    change (packetHeader K).testBit p = true at hp
    unfold packetHeader at hp
    rw [Nat.testBit_mod_two_pow] at hp
    simp only [Nat.testBit_or, Bool.and_eq_true, Bool.or_eq_true, decide_eq_true_eq] at hp
    rcases hp.2 with ((h | h) | h) | h
    · exact Or.inl (shifted_bit_inField _ _ _ _ hK.type_fits h)
    · exact Or.inr (Or.inl (shifted_bit_inField _ _ _ _ hK.barrier_fits h))
    · exact Or.inr (Or.inr (Or.inl (shifted_bit_inField _ _ _ _ hK.acquire_fits h)))
    · exact Or.inr (Or.inr (Or.inr (shifted_bit_inField _ _ _ _ hK.release_fits h)))
  · show packetHeader K < 2 ^ 16
    unfold packetHeader
    exact Nat.mod_lt _ (by decide)
  · show bitField (packetSetup K) _ _ = _
    unfold packetSetup
    rw [bitField_mod_two_pow _ _ _ _ hK.dimensions_within,
      bitField_shiftLeft_self _ _ _ hK.dimensions_fit]
    rfl

/-- The constants of HSA 1.0 satisfy the layout conditions. -/
theorem hsa_1_0_layout : HeaderLayout hsa_1_0 := by
  constructor <;> first | decide | exact Or.inl (by decide)

/-! ## Runs of `main` -/

theorem emit_trace (e : Event) (rest : Run) : (emit e rest).trace = e :: rest.trace := rfl

theorem emit_ending (e : Event) (rest : Run) : (emit e rest).ending = rest.ending := rfl

theorem assert_trace (c : Prop) [Decidable c] (rest : Run) :
    (assert c rest).trace = if c then rest.trace else [] := by
  unfold assert; split <;> rfl

theorem assert_ending (c : Prop) [Decidable c] (rest : Run) :
    (assert c rest).ending = if c then rest.ending else Termination.aborted := by
  unfold assert; split <;> rfl

/-- Without an agent reported as a GPU the candidate slot keeps handle 0. -/
theorem selectedDevice_of_no_gpu (env : Env)
    (hno : ∀ a, a ∈ env.agents → env.agent_device a ≠
      (hsa_status_t.HSA_STATUS_SUCCESS, hsa_device_type_t.HSA_DEVICE_TYPE_GPU)) :
    (hsa_iterate_agents (FindGpuDevice env.agent_device) env.agents
      (some { handle := 0 })).2 = some { handle := 0 } := by
  rw [iterate_FindGpuDevice_slot]
  have hnil : (env.agents.takeWhile
      (fun a => decide ((env.agent_device a).1 = hsa_status_t.HSA_STATUS_SUCCESS))).filter
      (fun a => decide ((env.agent_device a).2 = hsa_device_type_t.HSA_DEVICE_TYPE_GPU)) = [] := by
    rw [List.filter_eq_nil_iff]
    intro a ha hg
    have hmem : a ∈ env.agents := (List.takeWhile_sublist _).subset ha
    have hs := List.mem_takeWhile_imp ha
    simp only [decide_eq_true_eq] at hs hg
    exact hno a hmem (Prod.ext hs hg)
  rw [hnil]
  rfl

/-- C7: when the enumeration contains no agent reported as a GPU, the run ends
in a failed assertion and consists of events up to the discovery only: no
queue-size query, queue creation, executable create, load or freeze, symbol
lookup or dispatch operation occurs in it. -/
theorem no_gpu_aborts_after_discovery (K : HsaConstants) (env : Env)
    (hno : ∀ a, a ∈ env.agents → env.agent_device a ≠
      (hsa_status_t.HSA_STATUS_SUCCESS, hsa_device_type_t.HSA_DEVICE_TYPE_GPU)) :
    (main K env).ending = Termination.aborted ∧
    (∀ e, e ∈ (main K env).trace → e.isUpToDiscovery = true) ∧
    (∀ e, e ∈ (main K env).trace → e.isQueueExecutableOrDispatch = false) := by
  have hdev := selectedDevice_of_no_gpu env hno
  simp only [main, emit_trace, emit_ending, assert_trace, assert_ending, hdev, Option.getD_some,
    ne_eq, not_true_eq_false, if_false]
  refine ⟨?_, ?_, ?_⟩
  · split_ifs <;> rfl
  · split_ifs <;> simp [Event.isUpToDiscovery]
  · split_ifs <;> simp [Event.isQueueExecutableOrDispatch]

/-- The monitor `lookupsFollowFreeze` is sound: a lookup in the trace names an
executable that was frozen before the trace or by a successful freeze earlier
in the trace. -/
theorem freeze_precedes_lookup :
    ∀ (t : List Event) (frozen : List Nat), lookupsFollowFreeze frozen t →
      ∀ (pre post : List Event) (executable : Nat) (name : String) (agent : hsa_agent_t)
        (status : hsa_status_t) (symbol : Nat),
        t = pre ++ Event.hsa_executable_get_symbol executable name agent status symbol :: post →
        executable ∈ frozen ∨
          Event.hsa_executable_freeze executable hsa_status_t.HSA_STATUS_SUCCESS ∈ pre := by
  intro t
  induction t with
  | nil =>
    intro frozen _ pre post executable name agent status symbol h
    cases pre <;> simp at h
  | cons e rest ih =>
    intro frozen hm pre post executable name agent status symbol h
    cases pre with
    | nil =>
      simp only [List.nil_append, List.cons.injEq] at h
      obtain ⟨he, -⟩ := h
      subst he
      simp only [lookupsFollowFreeze] at hm
      exact Or.inl hm.1
    | cons p pre =>
      simp only [List.cons_append, List.cons.injEq] at h
      obtain ⟨he, hrest⟩ := h
      subst he
      cases e
      case hsa_executable_freeze ex st =>
        simp only [lookupsFollowFreeze] at hm
        rcases ih _ hm pre post executable name agent status symbol hrest with hin | hin
        · by_cases hst : hsa_status_t.HSA_STATUS_SUCCESS = st
          · rw [if_pos hst] at hin
            rcases List.mem_cons.1 hin with heq | hin
            · subst heq
              subst hst
              exact Or.inr (List.mem_cons_self _ _)
            · exact Or.inl hin
          · rw [if_neg hst] at hin
            exact Or.inl hin
        · exact Or.inr (List.mem_cons_of_mem _ hin)
      case hsa_executable_get_symbol ex nm ag st sy =>
        simp only [lookupsFollowFreeze] at hm
        rcases ih _ hm.2 pre post executable name agent status symbol hrest with hin | hin
        · exact Or.inl hin
        · exact Or.inr (List.mem_cons_of_mem _ hin)
      all_goals
        simp only [lookupsFollowFreeze] at hm
        rcases ih _ hm pre post executable name agent status symbol hrest with hin | hin
        · exact Or.inl hin
        · exact Or.inr (List.mem_cons_of_mem _ hin)

/-! ## Stepping through a run -/

theorem runSat_run (Q : List Event → Termination → Prop) (r : Run) (h : RunSat Q [] r) :
    Q r.trace r.ending := by
  simpa using h.holds

theorem runSat_emit (Q : List Event → Termination → Prop) (acc : List Event) (e : Event)
    (r : Run) (h : RunSat Q (acc ++ [e]) r) : RunSat Q acc (emit e r) := by
  constructor
  have := h.holds
  simpa [emit_trace, emit_ending] using this

theorem runSat_done (Q : List Event → Termination → Prop) (acc : List Event) (x : Termination)
    (h : EndSat Q acc x) : RunSat Q acc { trace := [], ending := x } := by
  constructor
  simpa using h.holds

theorem runSat_assert (Q : List Event → Termination → Prop) (acc : List Event) (c : Prop)
    [Decidable c] (r : Run) (hneg : ¬ c → EndSat Q acc Termination.aborted)
    (hpos : c → RunSat Q acc r) :
    RunSat Q acc (assert c r) := by
  unfold assert
  split
  · exact hpos ‹_›
  · exact runSat_done Q acc _ (hneg ‹_›)

theorem runSat_assert_success (Q : List Event → Termination → Prop) (acc : List Event)
    (status : hsa_status_t) (r : Run)
    (hneg : status ≠ hsa_status_t.HSA_STATUS_SUCCESS → EndSat Q acc Termination.aborted)
    (hpos : status = hsa_status_t.HSA_STATUS_SUCCESS → RunSat Q acc r) :
    RunSat Q acc (assert (hsa_status_t.HSA_STATUS_SUCCESS = status) r) :=
  runSat_assert Q acc _ r (fun h => hneg (fun h2 => h h2.symm)) (fun h => hpos h.symm)

theorem runSat_ite (Q : List Event → Termination → Prop) (acc : List Event) (c : Prop)
    [Decidable c] (a b : Run) (hpos : c → RunSat Q acc a) (hneg : ¬ c → RunSat Q acc b) :
    RunSat Q acc (if c then a else b) := by
  split
  · exact hpos ‹_›
  · exact hneg ‹_›

/-- The validation report is one of the two `printf` calls. -/
theorem validationReport_eq (v : Validation) :
    validationReport v =
      Event.printf (if v.valid then "passed validation\n" else "VALIDATION FAILED!\nBad index: %d\n")
        (if v.valid then [] else [v.failIndex]) := by
  unfold validationReport
  split <;> rfl

/-- In every run of `main` the symbol lookups follow the freeze. -/
theorem main_lookupsFollowFreeze (K : HsaConstants) (env : Env) :
    lookupsFollowFreeze [] (main K env).trace := by
  apply runSat_run (fun t _ => lookupsFollowFreeze [] t)
  unfold main
  repeat' first
    | with_reducible refine runSat_emit _ _ _ _ ?_
    | with_reducible refine runSat_done _ _ _ ?_
    | with_reducible refine runSat_assert_success _ _ _ _ (fun hfail => ?_) (fun hok => ?_)
    | with_reducible refine runSat_assert _ _ _ _ (fun hfail => ?_) (fun hok => ?_)
    | with_reducible refine runSat_ite _ _ _ _ _ (fun hyes => ?_) (fun hno => ?_)
  all_goals refine EndSat.mk ?_
  all_goals simp only [List.nil_append, List.append_assoc, List.cons_append, validationReport_eq]
  all_goals simp_all [lookupsFollowFreeze]

/-- In every run of `main` that writes the packet, the packet's kernel object
is the one queried from the kernel symbol, after the load, the freeze and the
lookup for the selected device have succeeded. -/
theorem main_packet_kernel_object (K : HsaConstants) (env : Env) :
    ∀ (queue : hsa_queue_t) (slot : Nat) (packet : hsa_kernel_dispatch_packet_t),
      Event.packet_store queue slot packet ∈ (main K env).trace →
      Event.hsa_iterate_agents hsa_status_t.HSA_STATUS_SUCCESS (selectedDevice env) ∈
        (main K env).trace ∧
      Event.hsa_executable_load_code_object env.hsaExecutable (selectedDevice env)
        env.code_object hsa_status_t.HSA_STATUS_SUCCESS ∈ (main K env).trace ∧
      Event.hsa_executable_freeze env.hsaExecutable hsa_status_t.HSA_STATUS_SUCCESS ∈
        (main K env).trace ∧
      Event.hsa_executable_get_symbol env.hsaExecutable "&test_kernel" (selectedDevice env)
        hsa_status_t.HSA_STATUS_SUCCESS env.kernelSymbol ∈ (main K env).trace ∧
      Event.hsa_executable_symbol_get_info_kernel_object env.kernelSymbol
        hsa_status_t.HSA_STATUS_SUCCESS packet.kernel_object ∈ (main K env).trace := by
  apply runSat_run (fun t _ =>
    ∀ (queue : hsa_queue_t) (slot : Nat) (packet : hsa_kernel_dispatch_packet_t),
      Event.packet_store queue slot packet ∈ t →
      Event.hsa_iterate_agents hsa_status_t.HSA_STATUS_SUCCESS (selectedDevice env) ∈ t ∧
      Event.hsa_executable_load_code_object env.hsaExecutable (selectedDevice env)
        env.code_object hsa_status_t.HSA_STATUS_SUCCESS ∈ t ∧
      Event.hsa_executable_freeze env.hsaExecutable hsa_status_t.HSA_STATUS_SUCCESS ∈ t ∧
      Event.hsa_executable_get_symbol env.hsaExecutable "&test_kernel" (selectedDevice env)
        hsa_status_t.HSA_STATUS_SUCCESS env.kernelSymbol ∈ t ∧
      Event.hsa_executable_symbol_get_info_kernel_object env.kernelSymbol
        hsa_status_t.HSA_STATUS_SUCCESS packet.kernel_object ∈ t)
  unfold main
  repeat' first
    | with_reducible refine runSat_emit _ _ _ _ ?_
    | with_reducible refine runSat_done _ _ _ ?_
    | with_reducible refine runSat_assert_success _ _ _ _ (fun hfail => ?_) (fun hok => ?_)
    | with_reducible refine runSat_assert _ _ _ _ (fun hfail => ?_) (fun hok => ?_)
    | with_reducible refine runSat_ite _ _ _ _ _ (fun hyes => ?_) (fun hno => ?_)
  all_goals refine EndSat.mk ?_
  all_goals simp only [List.nil_append, List.append_assoc, List.cons_append, validationReport_eq,
    selectedDevice, Env.hsaExecutable, Env.kernelSymbol, Env.code_object]
  all_goals intro queue slot packet hmem
  all_goals simp only [List.mem_cons, List.mem_singleton, List.not_mem_nil, reduceCtorEq,
    false_or, or_false, Event.packet_store.injEq] at hmem
  all_goals obtain ⟨-, -, rfl⟩ := hmem
  all_goals simp [*, dispatchPacket]

/-- In every run of `main`, a packet written to the queue is the packet `main`
built, written to the queue `main` created, at the slot computed from the write
index loaded from that queue and the mask of the queue's size. -/
theorem main_packet_store (K : HsaConstants) (env : Env) :
    ∀ (queue : hsa_queue_t) (slot : Nat) (packet : hsa_kernel_dispatch_packet_t),
      Event.packet_store queue slot packet ∈ (main K env).trace →
      queue = env.commandQueue ∧
      slot = slotIndex env.index (queueMask env.commandQueue.size) ∧
      packet = dispatchPacket K env.signal env.codeHandle env.args_address ∧
      Event.hsa_queue_load_write_index_relaxed env.commandQueue env.index ∈
        (main K env).trace := by
  apply runSat_run (fun t _ =>
    ∀ (queue : hsa_queue_t) (slot : Nat) (packet : hsa_kernel_dispatch_packet_t),
      Event.packet_store queue slot packet ∈ t →
      queue = env.commandQueue ∧
      slot = slotIndex env.index (queueMask env.commandQueue.size) ∧
      packet = dispatchPacket K env.signal env.codeHandle env.args_address ∧
      Event.hsa_queue_load_write_index_relaxed env.commandQueue env.index ∈ t)
  unfold main
  repeat' first
    | with_reducible refine runSat_emit _ _ _ _ ?_
    | with_reducible refine runSat_done _ _ _ ?_
    | with_reducible refine runSat_assert_success _ _ _ _ (fun hfail => ?_) (fun hok => ?_)
    | with_reducible refine runSat_assert _ _ _ _ (fun hfail => ?_) (fun hok => ?_)
    | with_reducible refine runSat_ite _ _ _ _ _ (fun hyes => ?_) (fun hno => ?_)
  all_goals refine EndSat.mk ?_
  all_goals simp only [List.nil_append, List.append_assoc, List.cons_append, validationReport_eq,
    selectedDevice, Env.hsaExecutable, Env.kernelSymbol, Env.commandQueue, Env.signal,
    Env.codeHandle, Env.index]
  all_goals intro queue slot packet hmem
  all_goals simp only [List.mem_cons, List.mem_singleton, List.not_mem_nil, reduceCtorEq,
    false_or, or_false, Event.packet_store.injEq] at hmem
  all_goals obtain ⟨rfl, rfl, rfl⟩ := hmem
  all_goals simp

/-- C4: in every run of `main`, the ring slot the packet is written to is
`index & (capacity - 1)`, with `index` the write index loaded from the queue
and `capacity` the size of the queue; for every capacity that is a power of
two below `2 ^ 32` and every 64-bit write index this is `index mod capacity`,
and so below the capacity. -/
theorem slot_is_index_mod_capacity (K : HsaConstants) (env : Env) (queueSize index : Nat)
    (hpow : ∃ k, queueSize = 2 ^ k) (h32 : queueSize < 2 ^ 32) (h64 : index < 2 ^ 64) :
    (slotIndex index (queueMask queueSize) = index % queueSize ∧
      slotIndex index (queueMask queueSize) < queueSize) ∧
    (∀ (queue : hsa_queue_t) (slot : Nat) (packet : hsa_kernel_dispatch_packet_t),
      Event.packet_store queue slot packet ∈ (main K env).trace →
      queue.size = queueSize → env.hsa_queue_load_write_index_relaxed queue = index →
      Event.hsa_queue_load_write_index_relaxed queue index ∈ (main K env).trace ∧
      slot = slotIndex index (queueMask queueSize) ∧
      slot = index % queueSize ∧ slot < queueSize) := by
  have hfun := slotIndex_eq_mod queueSize index hpow h32 h64
  refine ⟨hfun, ?_⟩
  intro queue slot packet hstore hsize hindex
  obtain ⟨hq, hs, -, hload⟩ := main_packet_store K env queue slot packet hstore
  subst hq
  have hi : env.index = index := hindex
  rw [hi] at hs hload
  rw [hsize] at hs
  exact ⟨hload, hs, hs.trans hfun.1, hs ▸ hfun.2⟩

/-- C4 with a queue of 1024 slots and the largest 64-bit write index: the
packet is written to slot 1023. -/
theorem slot_is_index_mod_capacity_witness :
    Event.packet_store { id := 21, size := 1024, base_address := 5000, doorbell_signal := 22 }
        1023 (dispatchPacket hsa_1_0 51 7000 4000) ∈ (main hsa_1_0 lastIndexEnv).trace ∧
    Event.hsa_queue_load_write_index_relaxed
        { id := 21, size := 1024, base_address := 5000, doorbell_signal := 22 } (2 ^ 64 - 1) ∈
      (main hsa_1_0 lastIndexEnv).trace ∧
    1023 = slotIndex (2 ^ 64 - 1) (queueMask 1024) ∧
    1023 = (2 ^ 64 - 1) % 1024 ∧ 1023 < 1024 :=
  ⟨by decide,
    (slot_is_index_mod_capacity hsa_1_0 lastIndexEnv 1024 (2 ^ 64 - 1) ⟨10, by decide⟩
      (by decide) (by decide)).2
      { id := 21, size := 1024, base_address := 5000, doorbell_signal := 22 } 1023
      (dispatchPacket hsa_1_0 51 7000 4000) (by decide) rfl rfl⟩

/-- C10: with the constants of `hsa.h`, the four header fields lie within the
16-bit header and do not overlap, and every packet `main` writes to the queue
has a header word that holds the kernel-dispatch packet type, barrier bit 1 and
system scope in both fence fields, every other header bit being 0, a setup
word that holds dimension count 1, grid and workgroup sizes 64x1x1 and group
and private segment sizes 0. The same holds of the packet for any constants
whose fields lie within their words, do not overlap and hold their values. -/
theorem packet_header_encodes_fields (env : Env) :
    (HeaderLayout hsa_1_0 ∧
      ∀ (queue : hsa_queue_t) (slot : Nat) (packet : hsa_kernel_dispatch_packet_t),
        Event.packet_store queue slot packet ∈ (main hsa_1_0 env).trace →
        PacketEncodes hsa_1_0 packet ∧ packet.header = 0x1502 ∧ packet.setup = 1) ∧
    (∀ K : HsaConstants, HeaderLayout K →
      ∀ (queue : hsa_queue_t) (slot : Nat) (packet : hsa_kernel_dispatch_packet_t),
        Event.packet_store queue slot packet ∈ (main K env).trace →
        PacketEncodes K packet) := by
  have hgen : ∀ K : HsaConstants, HeaderLayout K →
      ∀ (queue : hsa_queue_t) (slot : Nat) (packet : hsa_kernel_dispatch_packet_t),
        Event.packet_store queue slot packet ∈ (main K env).trace →
        PacketEncodes K packet := by
    intro K hK queue slot packet hstore
    obtain ⟨-, -, hp, -⟩ := main_packet_store K env queue slot packet hstore
    rw [hp]
    exact dispatchPacket_encodes K _ _ _ hK
  refine ⟨⟨hsa_1_0_layout, ?_⟩, hgen⟩
  intro queue slot packet hstore
  refine ⟨hgen hsa_1_0 hsa_1_0_layout queue slot packet hstore, ?_, ?_⟩
  · obtain ⟨-, -, hp, -⟩ := main_packet_store hsa_1_0 env queue slot packet hstore
    rw [hp]
    show packetHeader hsa_1_0 = 0x1502
    decide
  · obtain ⟨-, -, hp, -⟩ := main_packet_store hsa_1_0 env queue slot packet hstore
    rw [hp]
    show packetSetup hsa_1_0 = 1
    decide

/-- C10 in the environment where every call succeeds: the packet written to
slot 0 has header word `0x1502`, that is packet type 2 in bits 0 to 7, barrier
bit 8 set, and scope 2 in bits 9 to 10 and in bits 11 to 12; its setup word
is 1. -/
theorem packet_header_encodes_fields_witness :
    Event.packet_store { id := 21, size := 1024, base_address := 5000, doorbell_signal := 22 }
        0 (dispatchPacket hsa_1_0 51 7000 4000) ∈ (main hsa_1_0 goodEnv).trace ∧
    (dispatchPacket hsa_1_0 51 7000 4000).header = 0x1502 ∧
    bitField 0x1502 0 8 = 2 ∧ bitField 0x1502 8 1 = 1 ∧
    bitField 0x1502 9 2 = 2 ∧ bitField 0x1502 11 2 = 2 ∧
    (fieldsDisjoint 0 8 8 1 ∧ fieldsDisjoint 0 8 9 2 ∧ fieldsDisjoint 0 8 11 2 ∧
      fieldsDisjoint 8 1 9 2 ∧ fieldsDisjoint 8 1 11 2 ∧ fieldsDisjoint 9 2 11 2) ∧
    PacketEncodes hsa_1_0 (dispatchPacket hsa_1_0 51 7000 4000) :=
  ⟨by decide, by decide, by decide, by decide, by decide, by decide,
    ⟨(packet_header_encodes_fields goodEnv).1.1.type_barrier,
      (packet_header_encodes_fields goodEnv).1.1.type_acquire,
      (packet_header_encodes_fields goodEnv).1.1.type_release,
      (packet_header_encodes_fields goodEnv).1.1.barrier_acquire,
      (packet_header_encodes_fields goodEnv).1.1.barrier_release,
      (packet_header_encodes_fields goodEnv).1.1.acquire_release⟩,
    ((packet_header_encodes_fields goodEnv).1.2
      { id := 21, size := 1024, base_address := 5000, doorbell_signal := 22 } 0
      (dispatchPacket hsa_1_0 51 7000 4000) (by decide)).1⟩

/-- C8: in every run of `main`, a symbol lookup on an executable comes after a
freeze of the same executable that returned success; and a packet written to
the queue carries the kernel object queried from the symbol `&test_kernel`
that was resolved, for the selected device, from the executable loaded for
that device and frozen. -/
theorem symbol_lookups_follow_freeze (K : HsaConstants) (env : Env) :
    (∀ (pre post : List Event) (executable : Nat) (name : String) (agent : hsa_agent_t)
        (status : hsa_status_t) (symbol : Nat),
      (main K env).trace =
        pre ++ Event.hsa_executable_get_symbol executable name agent status symbol :: post →
      Event.hsa_executable_freeze executable hsa_status_t.HSA_STATUS_SUCCESS ∈ pre) ∧
    (∀ (queue : hsa_queue_t) (slot : Nat) (packet : hsa_kernel_dispatch_packet_t),
      Event.packet_store queue slot packet ∈ (main K env).trace →
      Event.hsa_iterate_agents hsa_status_t.HSA_STATUS_SUCCESS (selectedDevice env) ∈
        (main K env).trace ∧
      Event.hsa_executable_load_code_object env.hsaExecutable (selectedDevice env)
        env.code_object hsa_status_t.HSA_STATUS_SUCCESS ∈ (main K env).trace ∧
      Event.hsa_executable_freeze env.hsaExecutable hsa_status_t.HSA_STATUS_SUCCESS ∈
        (main K env).trace ∧
      Event.hsa_executable_get_symbol env.hsaExecutable "&test_kernel" (selectedDevice env)
        hsa_status_t.HSA_STATUS_SUCCESS env.kernelSymbol ∈ (main K env).trace ∧
      Event.hsa_executable_symbol_get_info_kernel_object env.kernelSymbol
        hsa_status_t.HSA_STATUS_SUCCESS packet.kernel_object ∈ (main K env).trace) := by
  refine ⟨?_, main_packet_kernel_object K env⟩
  intro pre post executable name agent status symbol h
  rcases freeze_precedes_lookup _ [] (main_lookupsFollowFreeze K env) pre post executable name
    agent status symbol h with hin | hin
  · cases hin
  · exact hin

/-- C8 in the environment where every call succeeds: the freeze of executable
31 is among the fifteen events before the lookup of `&test_kernel`. -/
theorem symbol_lookups_follow_freeze_witness :
    Event.hsa_executable_freeze 31 hsa_status_t.HSA_STATUS_SUCCESS ∈
      List.take 15 (main hsa_1_0 goodEnv).trace :=
  (symbol_lookups_follow_freeze hsa_1_0 goodEnv).1
    (List.take 15 (main hsa_1_0 goodEnv).trace) (List.drop 16 (main hsa_1_0 goodEnv).trace)
    31 "&test_kernel" { handle := 9 } hsa_status_t.HSA_STATUS_SUCCESS 41 (by decide)

theorem suffix_cons_of_suffix {α : Type} (a : α) (l₁ l₂ : List α) (h : l₁ <:+ l₂) :
    l₁ <:+ a :: l₂ :=
  h.trans (List.suffix_cons a l₂)

set_option maxHeartbeats 2000000 in
/-- C9: a run that prints the validation report, passed or failed, and whose
teardown calls all return success ends with exactly the teardown: after the
report it destroys the completion signal, the executable, the code object and
the queue it created, in that order, shuts the runtime down and frees both
arrays; these five are the only teardown calls of the run, each made once; and
the program returns exit code 0. -/
theorem teardown_after_validation (K : HsaConstants) (env : Env)
    (hreach : ∃ v, validationReport v ∈ (main K env).trace)
    (hsuccess : ∀ e, e ∈ (main K env).trace →
      e.teardownStatus = none ∨ e.teardownStatus = some hsa_status_t.HSA_STATUS_SUCCESS) :
    (main K env).ending = Termination.exited 0 ∧
    [validationReport (validate env.validated.inp env.validated.out env.validated.varDat),
      Event.hsa_signal_destroy env.signal hsa_status_t.HSA_STATUS_SUCCESS,
      Event.hsa_executable_destroy env.hsaExecutable hsa_status_t.HSA_STATUS_SUCCESS,
      Event.hsa_code_object_destroy env.code_object hsa_status_t.HSA_STATUS_SUCCESS,
      Event.hsa_queue_destroy env.commandQueue hsa_status_t.HSA_STATUS_SUCCESS,
      Event.hsa_shut_down hsa_status_t.HSA_STATUS_SUCCESS,
      Event.free env.calloc_in, Event.free env.calloc_out] <:+ (main K env).trace ∧
    (main K env).trace.filter (fun e => e.teardownStatus.isSome) =
      [Event.hsa_signal_destroy env.signal hsa_status_t.HSA_STATUS_SUCCESS,
        Event.hsa_executable_destroy env.hsaExecutable hsa_status_t.HSA_STATUS_SUCCESS,
        Event.hsa_code_object_destroy env.code_object hsa_status_t.HSA_STATUS_SUCCESS,
        Event.hsa_queue_destroy env.commandQueue hsa_status_t.HSA_STATUS_SUCCESS,
        Event.hsa_shut_down hsa_status_t.HSA_STATUS_SUCCESS] ∧
    Event.hsa_signal_create 1 hsa_status_t.HSA_STATUS_SUCCESS env.signal ∈ (main K env).trace ∧
    Event.hsa_executable_create hsa_status_t.HSA_STATUS_SUCCESS env.hsaExecutable ∈
      (main K env).trace ∧
    Event.hsa_code_object_deserialize (env.malloc env.file_size) env.file_size
      hsa_status_t.HSA_STATUS_SUCCESS env.code_object ∈ (main K env).trace ∧
    Event.hsa_queue_create (selectedDevice env) (env.agent_queue_max_size (selectedDevice env)).2
      hsa_status_t.HSA_STATUS_SUCCESS env.commandQueue ∈ (main K env).trace := by
  have hteardown : ∀ e, e ∈ (main K env).trace → ∀ status,
      e.teardownStatus = some status → status = hsa_status_t.HSA_STATUS_SUCCESS := by
    intro e he status hst
    rcases hsuccess e he with h | h
    · rw [h] at hst
      cases hst
    · rw [h] at hst
      exact (Option.some.inj hst).symm
  clear hsuccess
  revert hreach hteardown
  apply runSat_run (fun t x =>
    (∃ v, validationReport v ∈ t) →
    (∀ e, e ∈ t → ∀ status,
      e.teardownStatus = some status → status = hsa_status_t.HSA_STATUS_SUCCESS) →
    x = Termination.exited 0 ∧
    [validationReport (validate env.validated.inp env.validated.out env.validated.varDat),
      Event.hsa_signal_destroy env.signal hsa_status_t.HSA_STATUS_SUCCESS,
      Event.hsa_executable_destroy env.hsaExecutable hsa_status_t.HSA_STATUS_SUCCESS,
      Event.hsa_code_object_destroy env.code_object hsa_status_t.HSA_STATUS_SUCCESS,
      Event.hsa_queue_destroy env.commandQueue hsa_status_t.HSA_STATUS_SUCCESS,
      Event.hsa_shut_down hsa_status_t.HSA_STATUS_SUCCESS,
      Event.free env.calloc_in, Event.free env.calloc_out] <:+ t ∧
    t.filter (fun e => e.teardownStatus.isSome) =
      [Event.hsa_signal_destroy env.signal hsa_status_t.HSA_STATUS_SUCCESS,
        Event.hsa_executable_destroy env.hsaExecutable hsa_status_t.HSA_STATUS_SUCCESS,
        Event.hsa_code_object_destroy env.code_object hsa_status_t.HSA_STATUS_SUCCESS,
        Event.hsa_queue_destroy env.commandQueue hsa_status_t.HSA_STATUS_SUCCESS,
        Event.hsa_shut_down hsa_status_t.HSA_STATUS_SUCCESS] ∧
    Event.hsa_signal_create 1 hsa_status_t.HSA_STATUS_SUCCESS env.signal ∈ t ∧
    Event.hsa_executable_create hsa_status_t.HSA_STATUS_SUCCESS env.hsaExecutable ∈ t ∧
    Event.hsa_code_object_deserialize (env.malloc env.file_size) env.file_size
      hsa_status_t.HSA_STATUS_SUCCESS env.code_object ∈ t ∧
    Event.hsa_queue_create (selectedDevice env) (env.agent_queue_max_size (selectedDevice env)).2
      hsa_status_t.HSA_STATUS_SUCCESS env.commandQueue ∈ t)
  unfold main
  repeat' first
    | with_reducible refine runSat_emit _ _ _ _ ?_
    | with_reducible refine runSat_done _ _ _ ?_
    | with_reducible refine runSat_assert_success _ _ _ _ (fun hfail => ?_) (fun hok => ?_)
    | with_reducible refine runSat_assert _ _ _ _ (fun hfail => ?_) (fun hok => ?_)
    | with_reducible refine runSat_ite _ _ _ _ _ (fun hyes => ?_) (fun hno => ?_)
  all_goals refine EndSat.mk ?_
  all_goals simp only [List.nil_append, List.append_assoc, List.cons_append,
    selectedDevice, Env.hsaExecutable, Env.kernelSymbol, Env.code_object, Env.commandQueue,
    Env.signal, Env.validated]
  all_goals rintro ⟨v, hv⟩ htd
  all_goals simp only [List.mem_cons, List.mem_singleton, List.not_mem_nil,
    validationReport_eq, reduceCtorEq, false_or, or_false, Event.printf.injEq] at hv
  all_goals try (exfalso; cases hvalid : v.valid <;> simp [hvalid] at hv; done)
  all_goals clear hv
  all_goals simp only [List.mem_cons, List.mem_singleton, List.not_mem_nil,
    forall_eq_or_imp, forall_eq, Event.teardownStatus, validationReport_eq, reduceCtorEq,
    IsEmpty.forall_iff, implies_true, true_and, and_true, Option.some.injEq, forall_eq'] at htd
  all_goals try (exfalso; simp only [htd, ne_eq, not_true_eq_false] at hfail; done)
  obtain ⟨h1, h2, h3, h4, h5⟩ := htd
  simp only [h1, h2, h3, h4, h5]
  refine ⟨trivial, ?_, ?_, ?_, ?_, ?_, ?_⟩
  · repeat' first
      | with_reducible exact List.suffix_refl _
      | with_reducible refine suffix_cons_of_suffix _ _ _ ?_
  · simp [List.filter, Event.teardownStatus, validationReport_eq]
  · simp [*]
  · simp [*]
  · simp [*]
  · simp [*]

/-- C9 where the device writes a wrong value at index 5 of `out`: the report
is "VALIDATION FAILED!" with "Bad index: 5", the teardown follows and the exit
code is 0. -/
theorem teardown_after_validation_witness :
    (main hsa_1_0 wrongAtFiveEnv).ending = Termination.exited 0 ∧
    [Event.printf "VALIDATION FAILED!\nBad index: %d\n" [5],
      Event.hsa_signal_destroy 51 hsa_status_t.HSA_STATUS_SUCCESS,
      Event.hsa_executable_destroy 31 hsa_status_t.HSA_STATUS_SUCCESS,
      Event.hsa_code_object_destroy 11 hsa_status_t.HSA_STATUS_SUCCESS,
      Event.hsa_queue_destroy { id := 21, size := 1024, base_address := 5000, doorbell_signal := 22 }
        hsa_status_t.HSA_STATUS_SUCCESS,
      Event.hsa_shut_down hsa_status_t.HSA_STATUS_SUCCESS,
      Event.free 2000, Event.free 3000] <:+ (main hsa_1_0 wrongAtFiveEnv).trace :=
  ⟨(teardown_after_validation hsa_1_0 wrongAtFiveEnv
      ⟨{ valid := false, failIndex := 5 }, by decide⟩ (by decide)).1,
    (teardown_after_validation hsa_1_0 wrongAtFiveEnv
      ⟨{ valid := false, failIndex := 5 }, by decide⟩ (by decide)).2.1⟩

/-- C7 with the CPU agent only: the run aborts, and its last event is the
enumeration. -/
theorem no_gpu_aborts_after_discovery_witness :
    (∀ a, a ∈ noGpu.agents → noGpu.agent_device a ≠
      (hsa_status_t.HSA_STATUS_SUCCESS, hsa_device_type_t.HSA_DEVICE_TYPE_GPU)) ∧
    (main hsa_1_0 noGpu).trace.getLast? =
      some (Event.hsa_iterate_agents hsa_status_t.HSA_STATUS_SUCCESS { handle := 0 }) ∧
    (main hsa_1_0 noGpu).ending = Termination.aborted ∧
    (∀ e, e ∈ (main hsa_1_0 noGpu).trace → e.isUpToDiscovery = true) ∧
    (∀ e, e ∈ (main hsa_1_0 noGpu).trace → e.isQueueExecutableOrDispatch = false) :=
  ⟨by decide, by decide, no_gpu_aborts_after_discovery hsa_1_0 noGpu (by decide)⟩

/-! ## Where the program departs from its fail-fast policy -/

/-- C5, at the failing input: the registration of the argument structure
returns a status other than success, and the run goes on with the next
statement, dispatches, validates, tears down and returns exit code 0. -/
theorem args_registration_status_is_dropped :
    [Event.hsa_memory_register 4000 16 (hsa_status_t.HSA_STATUS_OTHER 1),
      Event.hsa_queue_load_write_index_relaxed
        { id := 21, size := 1024, base_address := 5000, doorbell_signal := 22 } 0] <:+:
      (main hsa_1_0 argsRegistrationFails).trace ∧
    Event.printf "passed validation\n" [] ∈ (main hsa_1_0 argsRegistrationFails).trace ∧
    Event.hsa_shut_down hsa_status_t.HSA_STATUS_SUCCESS ∈
      (main hsa_1_0 argsRegistrationFails).trace ∧
    (main hsa_1_0 argsRegistrationFails).ending = Termination.exited 0 := by
  decide

/-- C6, at the failing input: the wait returns 1, the program prints "Signal
wait returned unexpected value" and ends through `exit(0)`, with exit status 0
and not by an abort; no teardown call is made. -/
theorem unexpected_wait_exits_with_status_zero :
    [Event.hsa_signal_wait_acquire 51 1,
      Event.printf "Signal wait returned unexpected value\n" []] <:+
      (main hsa_1_0 waitReturnsOne).trace ∧
    (main hsa_1_0 waitReturnsOne).ending = Termination.exited 0 ∧
    (main hsa_1_0 waitReturnsOne).ending ≠ Termination.aborted ∧
    (∀ e, e ∈ (main hsa_1_0 waitReturnsOne).trace → e.teardownStatus = none) := by
  decide

set_option maxHeartbeats 4000000 in
/-- In every run the status of every runtime call but one is checked: a call
that returns a status other than success is the last event of the run, which
ends aborted, unless it is the registration of the argument structure. -/
theorem checked_status_aborts (K : HsaConstants) (env : Env) :
    ∀ e, e ∈ (main K env).trace → ∀ status, e.status = some status →
      status ≠ hsa_status_t.HSA_STATUS_SUCCESS →
      ((main K env).trace.getLast? = some e ∧ (main K env).ending = Termination.aborted) ∨
      e = Event.hsa_memory_register env.args_address 16 status := by
  apply runSat_run (fun t x =>
    ∀ e, e ∈ t → ∀ status, e.status = some status →
      status ≠ hsa_status_t.HSA_STATUS_SUCCESS →
      (t.getLast? = some e ∧ x = Termination.aborted) ∨
      e = Event.hsa_memory_register env.args_address 16 status)
  unfold main
  repeat' first
    | with_reducible refine runSat_emit _ _ _ _ ?_
    | with_reducible refine runSat_done _ _ _ ?_
    | with_reducible refine runSat_assert_success _ _ _ _ (fun hfail => ?_) (fun hok => ?_)
    | with_reducible refine runSat_assert _ _ _ _ (fun hfail => ?_) (fun hok => ?_)
    | with_reducible refine runSat_ite _ _ _ _ _ (fun hyes => ?_) (fun hno => ?_)
  all_goals refine EndSat.mk ?_
  all_goals simp only [List.nil_append, List.append_assoc, List.cons_append, validationReport_eq]
  all_goals simp [Event.status, *]

set_option maxHeartbeats 4000000 in
/-- In every run, once the registration of the argument structure has been
called, the load of the write index follows, whatever status the registration
returned. -/
theorem args_registration_never_stops_the_run (K : HsaConstants) (env : Env) :
    Event.hsa_memory_register env.args_address 16
        (env.hsa_memory_register env.args_address 16) ∈ (main K env).trace →
      Event.hsa_queue_load_write_index_relaxed env.commandQueue
        (env.hsa_queue_load_write_index_relaxed env.commandQueue) ∈ (main K env).trace := by
  apply runSat_run (fun t _ =>
    Event.hsa_memory_register env.args_address 16
        (env.hsa_memory_register env.args_address 16) ∈ t →
      Event.hsa_queue_load_write_index_relaxed env.commandQueue
        (env.hsa_queue_load_write_index_relaxed env.commandQueue) ∈ t)
  unfold main
  repeat' first
    | with_reducible refine runSat_emit _ _ _ _ ?_
    | with_reducible refine runSat_done _ _ _ ?_
    | with_reducible refine runSat_assert_success _ _ _ _ (fun hfail => ?_) (fun hok => ?_)
    | with_reducible refine runSat_assert _ _ _ _ (fun hfail => ?_) (fun hok => ?_)
    | with_reducible refine runSat_ite _ _ _ _ _ (fun hyes => ?_) (fun hno => ?_)
  all_goals refine EndSat.mk ?_
  all_goals simp only [List.nil_append, List.append_assoc, List.cons_append, validationReport_eq,
    selectedDevice, Env.commandQueue]
  all_goals intro hmem
  all_goals simp [*] at hmem ⊢

set_option maxHeartbeats 4000000 in
/-- In every run in which the wait on the completion signal returns a value
other than 0, the program ends with exit status 0 right after printing
"Signal wait returned unexpected value". -/
theorem unexpected_wait_ends_the_run_with_status_zero (K : HsaConstants) (env : Env) :
    ∀ (signal : Nat) (returned : Int),
      Event.hsa_signal_wait_acquire signal returned ∈ (main K env).trace → returned ≠ 0 →
      (main K env).ending = Termination.exited 0 ∧
      (main K env).trace.getLast? =
        some (Event.printf "Signal wait returned unexpected value\n" []) := by
  apply runSat_run (fun t x =>
    ∀ (signal : Nat) (returned : Int),
      Event.hsa_signal_wait_acquire signal returned ∈ t → returned ≠ 0 →
      x = Termination.exited 0 ∧
      t.getLast? = some (Event.printf "Signal wait returned unexpected value\n" []))
  unfold main
  repeat' first
    | with_reducible refine runSat_emit _ _ _ _ ?_
    | with_reducible refine runSat_done _ _ _ ?_
    | with_reducible refine runSat_assert_success _ _ _ _ (fun hfail => ?_) (fun hok => ?_)
    | with_reducible refine runSat_assert _ _ _ _ (fun hfail => ?_) (fun hok => ?_)
    | with_reducible refine runSat_ite _ _ _ _ _ (fun hyes => ?_) (fun hno => ?_)
  all_goals refine EndSat.mk ?_
  all_goals simp only [List.nil_append, List.append_assoc, List.cons_append, validationReport_eq]
  all_goals intro signal returned hmem hne
  all_goals simp only [List.mem_cons, List.mem_singleton, List.not_mem_nil, reduceCtorEq,
    false_or, or_false, Event.hsa_signal_wait_acquire.injEq] at hmem
  all_goals obtain ⟨-, rfl⟩ := hmem
  all_goals first
    | exact absurd hne hno
    | simp

end HsaExample
